import Mathlib

/-!
Verification of the UBLOX GPS driver (src/main/io/gps_ublox.c): a shallow
embedding of the frame decoder, solution mapper, acknowledgment tracker,
capability detector and GNSS configuration builder, with theorems checking
the natural-language specification against the code.

Machine integers are modelled as Nat (unsigned) and Int (signed) with
explicit reductions modulo 256 / 65536 / 2^32 where the C types wrap.
The mutable module-level variables of the C file are collected into one
explicit state record, and every C function becomes a pure state
transformer.
-/

namespace GpsUblox

/-! ### Protocol constants (from the enums and defines in gps_ublox.c) -/

def PREAMBLE1 : Nat := 0xB5
def PREAMBLE2 : Nat := 0x62
def CLASS_NAV : Nat := 0x01
def CLASS_ACK : Nat := 0x05
def CLASS_CFG : Nat := 0x06
def CLASS_MON : Nat := 0x0A
def MSG_VER : Nat := 0x04
def MSG_ACK_NACK : Nat := 0x00
def MSG_ACK_ACK : Nat := 0x01
def MSG_POSLLH : Nat := 0x2
def MSG_STATUS : Nat := 0x3
def MSG_SOL : Nat := 0x6
def MSG_PVT : Nat := 0x7
def MSG_VELNED : Nat := 0x12
def MSG_TIMEUTC : Nat := 0x21
def MSG_CFG_GNSS : Nat := 0x3e

def MAX_UBLOX_PAYLOAD_SIZE : Nat := 256

def UBX_HW_VERSION_UNKNOWN : Nat := 0
def UBX_HW_VERSION_UBLOX5 : Nat := 500
def UBX_HW_VERSION_UBLOX6 : Nat := 600
def UBX_HW_VERSION_UBLOX7 : Nat := 700
def UBX_HW_VERSION_UBLOX8 : Nat := 800
def UBX_HW_VERSION_UBLOX9 : Nat := 900
def UBX_HW_VERSION_UBLOX10 : Nat := 1000

def UBX_ACK_WAITING : Nat := 0
def UBX_ACK_GOT_ACK : Nat := 1
def UBX_ACK_GOT_NAK : Nat := 2

def FIX_2D : Nat := 2
def FIX_3D : Nat := 3

def GNSSID_SBAS : Nat := 1
def GNSSID_GALILEO : Nat := 2

def GPS_CFG_CMD_TIMEOUT_MS : Nat := 200

/-- Modelled from the spec: the fix-type enum published in the navigation
solution (none, 2D, 3D).  The numeric values of GPS_NO_FIX, GPS_FIX_2D and
GPS_FIX_3D live in io/gps.h, which is not part of this repository snapshot;
only their distinctness matters here. -/
def GPS_NO_FIX : Nat := 0

def GPS_FIX_2D : Nat := 1

def GPS_FIX_3D : Nat := 2

/-- Modelled from the spec: the source comment lists the SBAS mode order
SBAS_AUTO, SBAS_EGNOS, SBAS_WAAS, SBAS_MSAS, SBAS_GAGAN, SBAS_NONE, so
SBAS_NONE is index 5. -/
def SBAS_NONE : Nat := 5

/-- Modelled from the spec: gpsConstrainEPE clamps an accuracy estimate to
the representable range (gps.c is not part of this snapshot). -/
def gpsConstrainEPE (epe : Nat) : Nat := min epe 9999

/-- Modelled from the spec: gpsConstrainHDOP clamps the dilution of
precision to the representable range (gps.c is not part of this snapshot). -/
def gpsConstrainHDOP (hdop : Nat) : Nat := min hdop 9999

/-! ### Byte-level helpers for the receive buffer -/

/-- One byte of the receive buffer (uint8_t view). -/
def byteAt (buf : Nat → Nat) (i : Nat) : Nat := buf i % 256

/-- Little-endian 16-bit read, as the C struct overlay does. -/
def le16 (buf : Nat → Nat) (o : Nat) : Nat :=
  byteAt buf o + 256 * byteAt buf (o + 1)

/-- Little-endian 32-bit read, as the C struct overlay does. -/
def le32 (buf : Nat → Nat) (o : Nat) : Nat :=
  byteAt buf o + 256 * byteAt buf (o + 1) + 65536 * byteAt buf (o + 2) +
    16777216 * byteAt buf (o + 3)

/-- Reinterpret an unsigned 32-bit value as the twos-complement int32_t the
C struct fields use. -/
def toInt32 (x : Nat) : Int :=
  if x < 2147483648 then (x : Int) else (x : Int) - 4294967296

/-- A C string viewed as a char source: the listed bytes followed by the
zero terminator (reads past the end return 0). -/
def cstr (s : List Nat) : Nat → Nat := fun i => s.getD i 0

/-! ### Checksum engine: _update_checksum -/

/-- The running dual-accumulator checksum of gps_ublox.c: for each byte in
order, ck_a += byte; ck_b += ck_a, on uint8_t accumulators. -/
def _update_checksum : List Nat → Nat → Nat → Nat × Nat
  | [], a, b => (a, b)
  | d :: rest, a, b =>
    _update_checksum rest ((a + d) % 256) ((b + (a + d) % 256) % 256)

/-! ### Capability detector -/

/-- C strncmp on char sources, comparing at most n characters and stopping
at a zero terminator, returning the signed difference of the first
mismatching pair. -/
def strncmp : (Nat → Nat) → (Nat → Nat) → Nat → Int
  | _, _, 0 => 0
  | a, b, n + 1 =>
    if a 0 ≠ b 0 then (a 0 : Int) - (b 0 : Int)
    else if a 0 = 0 then 0
    else strncmp (fun i => a (i + 1)) (fun i => b (i + 1)) n

/-- The hardware version string "00040005" (u-blox 5). -/
def hwVer5 : List Nat := [48, 48, 48, 52, 48, 48, 48, 53]

/-- The hardware version string "00040007" (u-blox 6). -/
def hwVer6 : List Nat := [48, 48, 48, 52, 48, 48, 48, 55]

/-- The hardware version string "00070000" (u-blox 7). -/
def hwVer7 : List Nat := [48, 48, 48, 55, 48, 48, 48, 48]

/-- The hardware version string "00080000" (u-blox M8). -/
def hwVer8 : List Nat := [48, 48, 48, 56, 48, 48, 48, 48]

/-- The hardware version string "00190000" (u-blox M9). -/
def hwVer9 : List Nat := [48, 48, 49, 57, 48, 48, 48, 48]

/-- The hardware version string "000A0000" (u-blox M10). -/
def hwVer10 : List Nat := [48, 48, 48, 65, 48, 48, 48, 48]

/-- gpsDecodeHardwareVersion: exact strncmp match of the hardware version
string against the fixed table, unknown otherwise. -/
def gpsDecodeHardwareVersion (szBuf : Nat → Nat) (nBufSize : Nat) : Nat :=
  if strncmp szBuf (cstr hwVer5) nBufSize = 0 then UBX_HW_VERSION_UBLOX5
  else if strncmp szBuf (cstr hwVer6) nBufSize = 0 then UBX_HW_VERSION_UBLOX6
  else if strncmp szBuf (cstr hwVer7) nBufSize = 0 then UBX_HW_VERSION_UBLOX7
  else if strncmp szBuf (cstr hwVer8) nBufSize = 0 then UBX_HW_VERSION_UBLOX8
  else if strncmp szBuf (cstr hwVer9) nBufSize = 0 then UBX_HW_VERSION_UBLOX9
  else if strncmp szBuf (cstr hwVer10) nBufSize = 0 then UBX_HW_VERSION_UBLOX10
  else UBX_HW_VERSION_UNKNOWN

/-- Modelled from the spec: strnstr (from the platform string utilities,
not part of this snapshot) locating the marker substring "GAL" within a
30-byte extension block, not scanning past a zero terminator. -/
def strnstrGAL (buf : Nat → Nat) (off : Nat) : Bool :=
  (List.range 28).any fun p =>
    byteAt buf (off + p) == 71 && byteAt buf (off + p + 1) == 65 &&
      byteAt buf (off + p + 2) == 76 &&
      (List.range p).all fun q => byteAt buf (off + q) != 0

/-- The extension-block scan of the MSG_VER handler: blocks of 30 bytes
starting at offset 40, each searched for "GAL", until the payload length is
reached. -/
def scanGalileo (buf : Nat → Nat) (plen j : Nat) : Bool :=
  if j < plen then
    if strnstrGAL buf j then true else scanGalileo buf plen (j + 30)
  else false
termination_by plen - j
decreasing_by omega

/-- gpsMapFixType: derive the published fix type from the fix-valid bit and
the raw ublox fix type code. -/
def gpsMapFixType (fixValid : Bool) (ubloxFixType : Nat) : Nat :=
  if fixValid ∧ ubloxFixType = FIX_2D then GPS_FIX_2D
  else if fixValid ∧ ubloxFixType = FIX_3D then GPS_FIX_3D
  else GPS_NO_FIX

/-! ### The driver state -/

/-- The published navigation solution (gpsSol).  Field widths that live in
io/gps.h (outside this snapshot) are modelled as unbounded Nat/Int; the
explicit uint16_t cast on groundCourse is written in the source and kept. -/
structure GpsSolution where
  lon : Int
  lat : Int
  alt : Int
  velN : Int
  velE : Int
  velD : Int
  groundSpeed : Int
  groundCourse : Nat
  eph : Nat
  epv : Nat
  hdop : Nat
  numSat : Nat
  fixType : Nat
  validVelNE : Bool
  validVelD : Bool
  validEPE : Bool
  validTime : Bool
  year : Nat
  month : Nat
  day : Nat
  hours : Nat
  minutes : Nat
  seconds : Nat
  millis : Int
deriving DecidableEq

/-- The module-level mutable state of gps_ublox.c: checksum accumulators,
decoder state machine registers, receive buffer, ack tracker, capability
flags, solution latches, the published solution and the packet/error
statistics. -/
structure UbloxState where
  ck_a : Nat
  ck_b : Nat
  skip_packet : Bool
  step : Nat
  msg_id : Nat
  payload_length : Nat
  payload_counter : Nat
  next_fix_type : Nat
  cls : Nat
  ack_state : Nat
  ack_waiting_msg : Nat
  new_position : Bool
  new_speed : Bool
  capGalileo : Bool
  hwVersion : Nat
  buffer : Nat → Nat
  sol : GpsSolution
  errors : Nat
  packetCount : Nat

/-- The zeroed solution record. -/
def initialSolution : GpsSolution :=
  { lon := 0, lat := 0, alt := 0, velN := 0, velE := 0, velD := 0,
    groundSpeed := 0, groundCourse := 0, eph := 0, epv := 0, hdop := 0,
    numSat := 0, fixType := 0, validVelNE := false, validVelD := false,
    validEPE := false, validTime := false, year := 0, month := 0, day := 0,
    hours := 0, minutes := 0, seconds := 0, millis := 0 }

/-- The zeroed module state (C static storage). -/
def initialUbloxState : UbloxState :=
  { ck_a := 0, ck_b := 0, skip_packet := false, step := 0, msg_id := 0,
    payload_length := 0, payload_counter := 0, next_fix_type := 0, cls := 0,
    ack_state := UBX_ACK_WAITING, ack_waiting_msg := 0,
    new_position := false, new_speed := false, capGalileo := false,
    hwVersion := UBX_HW_VERSION_UNKNOWN, buffer := fun _ => 0,
    sol := initialSolution, errors := 0, packetCount := 0 }

/-! ### Solution mapper: gpsParceFrameUBLOX

The C function is a switch on `_msg_id` whose `default` case returns false
immediately; every recognized case falls through to the epoch-completion
check.  `gpsParceDispatch` models the switch body (`none` = the default
case early return), `gpsParceFrameUBLOX` adds the completion check. -/

/-- The switch body of gpsParceFrameUBLOX.  Struct-overlay field reads are
spelled as little-endian reads at the offsets of the corresponding C
structs (ubx_nav_posllh, ubx_nav_status, ubx_nav_solution, ubx_nav_velned,
ubx_nav_timeutc, ubx_nav_pvt, ubx_mon_ver, ubx_ack_ack). -/
def gpsParceDispatch (s : UbloxState) : Option UbloxState :=
  if s.msg_id = MSG_POSLLH then
    some { s with
      sol :=
        { (if s.next_fix_type ≠ GPS_NO_FIX then
             { s.sol with fixType := s.next_fix_type }
           else s.sol) with
          lon := toInt32 (le32 s.buffer 4),
          lat := toInt32 (le32 s.buffer 8),
          alt := Int.tdiv (toInt32 (le32 s.buffer 16)) 10,
          eph := gpsConstrainEPE (le32 s.buffer 20 / 10),
          epv := gpsConstrainEPE (le32 s.buffer 24 / 10),
          validEPE := true },
      new_position := true }
  else if s.msg_id = MSG_STATUS then
    some { s with
      next_fix_type := gpsMapFixType ((byteAt s.buffer 5 &&& 1) ≠ 0) (byteAt s.buffer 4),
      sol :=
        if gpsMapFixType ((byteAt s.buffer 5 &&& 1) ≠ 0) (byteAt s.buffer 4) = GPS_NO_FIX then
          { s.sol with fixType := GPS_NO_FIX }
        else s.sol }
  else if s.msg_id = MSG_SOL then
    some { s with
      next_fix_type := gpsMapFixType ((byteAt s.buffer 11 &&& 1) ≠ 0) (byteAt s.buffer 10),
      sol :=
        { (if gpsMapFixType ((byteAt s.buffer 11 &&& 1) ≠ 0) (byteAt s.buffer 10) = GPS_NO_FIX then
             { s.sol with fixType := GPS_NO_FIX }
           else s.sol) with
          numSat := byteAt s.buffer 47,
          hdop := gpsConstrainHDOP (le16 s.buffer 44) } }
  else if s.msg_id = MSG_VELNED then
    some { s with
      sol := { s.sol with
        groundSpeed := (le32 s.buffer 20 : Int),
        groundCourse := (Int.tdiv (toInt32 (le32 s.buffer 24)) 10000 % 65536).toNat,
        velN := toInt32 (le32 s.buffer 4),
        velE := toInt32 (le32 s.buffer 8),
        velD := toInt32 (le32 s.buffer 12),
        validVelNE := true,
        validVelD := true },
      new_speed := true }
  else if s.msg_id = MSG_TIMEUTC then
    some { s with
      sol :=
        if (byteAt s.buffer 19 &&& 1) ≠ 0 ∧ (byteAt s.buffer 19 &&& 2) ≠ 0 then
          { s.sol with
            year := le16 s.buffer 12,
            month := byteAt s.buffer 14,
            day := byteAt s.buffer 15,
            hours := byteAt s.buffer 16,
            minutes := byteAt s.buffer 17,
            seconds := byteAt s.buffer 18,
            millis := Int.tdiv (toInt32 (le32 s.buffer 8)) (1000 * 1000),
            validTime := true }
        else { s.sol with validTime := false } }
  else if s.msg_id = MSG_PVT then
    some { s with
      next_fix_type := gpsMapFixType ((byteAt s.buffer 21 &&& 1) ≠ 0) (byteAt s.buffer 20),
      sol :=
        { (if (byteAt s.buffer 11 &&& 1) ≠ 0 ∧ (byteAt s.buffer 11 &&& 2) ≠ 0 then
             { s.sol with
               year := le16 s.buffer 4,
               month := byteAt s.buffer 6,
               day := byteAt s.buffer 7,
               hours := byteAt s.buffer 8,
               minutes := byteAt s.buffer 9,
               seconds := byteAt s.buffer 10,
               millis := Int.tdiv (toInt32 (le32 s.buffer 16)) (1000 * 1000),
               validTime := true }
           else { s.sol with validTime := false }) with
          fixType := gpsMapFixType ((byteAt s.buffer 21 &&& 1) ≠ 0) (byteAt s.buffer 20),
          lon := toInt32 (le32 s.buffer 24),
          lat := toInt32 (le32 s.buffer 28),
          alt := Int.tdiv (toInt32 (le32 s.buffer 36)) 10,
          velN := Int.tdiv (toInt32 (le32 s.buffer 48)) 10,
          velE := Int.tdiv (toInt32 (le32 s.buffer 52)) 10,
          velD := Int.tdiv (toInt32 (le32 s.buffer 56)) 10,
          groundSpeed := Int.tdiv (toInt32 (le32 s.buffer 60)) 10,
          groundCourse := (Int.tdiv (toInt32 (le32 s.buffer 64)) 10000 % 65536).toNat,
          numSat := byteAt s.buffer 23,
          eph := gpsConstrainEPE (le32 s.buffer 40 / 10),
          epv := gpsConstrainEPE (le32 s.buffer 44 / 10),
          hdop := gpsConstrainHDOP (le16 s.buffer 76),
          validVelNE := true,
          validVelD := true,
          validEPE := true },
      new_position := true,
      new_speed := true }
  else if s.msg_id = MSG_VER then
    some { s with
      hwVersion :=
        if s.cls = CLASS_MON then
          gpsDecodeHardwareVersion (fun i => byteAt s.buffer (30 + i)) 10
        else s.hwVersion,
      capGalileo :=
        if s.cls = CLASS_MON ∧
            gpsDecodeHardwareVersion (fun i => byteAt s.buffer (30 + i)) 10 ≥
              UBX_HW_VERSION_UBLOX8 ∧
            byteAt s.buffer 9 > 50 then
          (if scanGalileo s.buffer s.payload_length 40 then true else s.capGalileo)
        else s.capGalileo }
  else if s.msg_id = MSG_ACK_ACK then
    some { s with
      ack_state :=
        if s.ack_state = UBX_ACK_WAITING ∧ byteAt s.buffer 1 = s.ack_waiting_msg then
          UBX_ACK_GOT_ACK
        else s.ack_state }
  else if s.msg_id = MSG_ACK_NACK then
    some { s with
      ack_state :=
        if s.ack_state = UBX_ACK_WAITING ∧ byteAt s.buffer 1 = s.ack_waiting_msg then
          UBX_ACK_GOT_NAK
        else s.ack_state }
  else none

/-- gpsParceFrameUBLOX: run the dispatch switch; on a recognized message,
return true exactly when both the new-position and new-speed latches are
set, clearing them together. -/
def gpsParceFrameUBLOX (s : UbloxState) : UbloxState × Bool :=
  match gpsParceDispatch s with
  | none => (s, false)
  | some s1 =>
    if s1.new_position && s1.new_speed then
      ({ s1 with new_position := false, new_speed := false }, true)
    else (s1, false)

/-! ### Frame decoder: gpsNewFrameUBLOX -/

/-- gpsNewFrameUBLOX: one byte of the 9-state framing machine.  The data
parameter is a uint8_t, hence the initial reduction modulo 256. -/
def gpsNewFrameUBLOX (s : UbloxState) (data0 : Nat) : UbloxState × Bool :=
  let data := data0 % 256
  if s.step = 0 then
    (if data = PREAMBLE1 then { s with skip_packet := false, step := 1 } else s, false)
  else if s.step = 1 then
    (if data ≠ PREAMBLE2 then { s with step := 0 } else { s with step := 2 }, false)
  else if s.step = 2 then
    ({ s with step := 3, cls := data, ck_a := data, ck_b := data }, false)
  else if s.step = 3 then
    ({ s with
       step := 4,
       ck_a := (s.ck_a + data) % 256,
       ck_b := (s.ck_b + (s.ck_a + data) % 256) % 256,
       msg_id := data }, false)
  else if s.step = 4 then
    ({ s with
       step := 5,
       ck_a := (s.ck_a + data) % 256,
       ck_b := (s.ck_b + (s.ck_a + data) % 256) % 256,
       payload_length := data }, false)
  else if s.step = 5 then
    if s.payload_length ||| ((data <<< 8) % 65536) > MAX_UBLOX_PAYLOAD_SIZE then
      ({ s with
         step := 0,
         ck_a := (s.ck_a + data) % 256,
         ck_b := (s.ck_b + (s.ck_a + data) % 256) % 256,
         payload_length := s.payload_length ||| ((data <<< 8) % 65536),
         errors := s.errors + 1 }, false)
    else
      ({ s with
         step := if s.payload_length ||| ((data <<< 8) % 65536) = 0 then 7 else 6,
         ck_a := (s.ck_a + data) % 256,
         ck_b := (s.ck_b + (s.ck_a + data) % 256) % 256,
         payload_length := s.payload_length ||| ((data <<< 8) % 65536),
         payload_counter := 0 }, false)
  else if s.step = 6 then
    ({ s with
       ck_a := (s.ck_a + data) % 256,
       ck_b := (s.ck_b + (s.ck_a + data) % 256) % 256,
       buffer :=
         if s.payload_counter < MAX_UBLOX_PAYLOAD_SIZE then
           fun i => if i = s.payload_counter then data else s.buffer i
         else s.buffer,
       step := if (s.payload_counter : Int) = (s.payload_length : Int) - 1 then 7 else s.step,
       payload_counter := (s.payload_counter + 1) % 65536 }, false)
  else if s.step = 7 then
    if s.ck_a ≠ data then
      ({ s with step := 0, skip_packet := true, errors := s.errors + 1 }, false)
    else
      ({ s with step := 8 }, false)
  else if s.step = 8 then
    if s.ck_b ≠ data then
      ({ s with step := 0, errors := s.errors + 1 }, false)
    else if s.skip_packet then
      ({ s with step := 0, packetCount := s.packetCount + 1 }, false)
    else
      gpsParceFrameUBLOX { s with step := 0, packetCount := s.packetCount + 1 }
  else
    (s, false)

/-- Feed a byte stream into the decoder, keeping the final state. -/
def runUblox : UbloxState → List Nat → UbloxState
  | s, [] => s
  | s, d :: ds => runUblox (gpsNewFrameUBLOX s d).1 ds

/-! ### Accepted frames delivered to the mapper -/

/-- An accepted frame as the decoder hands it to the mapper: wire class,
message id, declared payload length and the receive-buffer contents. -/
structure UbxFrame where
  cls : Nat
  id : Nat
  plen : Nat
  buf : Nat → Nat

/-- Load an accepted frame into the decoder registers the mapper reads. -/
def loadFrame (s : UbloxState) (f : UbxFrame) : UbloxState :=
  { s with cls := f.cls, msg_id := f.id, payload_length := f.plen, buffer := f.buf }

/-- Deliver one accepted frame to the solution mapper. -/
def applyFrame (s : UbloxState) (f : UbxFrame) : UbloxState × Bool :=
  gpsParceFrameUBLOX (loadFrame s f)

/-- Deliver a sequence of accepted frames; the boolean is true when any of
them fired epoch completion. -/
def runFrames : UbloxState → List UbxFrame → UbloxState × Bool
  | s, [] => (s, false)
  | s, f :: fs =>
    let r := applyFrame s f
    let rest := runFrames r.1 fs
    (rest.1, r.2 || rest.2)

/-! ### Command encoder and ack tracker -/

/-- The ack-tracking effect of sendConfigMessageUBLOX: record the sent
message id (a uint8_t header field) and enter the waiting state.  The
serialization and transmission onto the wire are external I/O. -/
def sendConfigMessageUBLOX (s : UbloxState) (msgId : Nat) : UbloxState :=
  { s with ack_waiting_msg := msgId % 256, ack_state := UBX_ACK_WAITING }

/-! ### GNSS configuration builder -/

/-- One 8-byte GNSS capability block (ubx_gnss_element_t). -/
structure UbxGnssElement where
  gnssId : Nat
  resTrkCh : Nat
  maxTrkCh : Nat
  reserved1 : Nat
  enabled : Nat
  undefined0 : Nat
  sigCfgMask : Nat
  undefined1 : Nat
deriving DecidableEq

/-- configureGNSS_SBAS: the SBAS capability block, always generated. -/
def configureGNSS_SBAS (sbasMode : Nat) : UbxGnssElement :=
  { gnssId := GNSSID_SBAS,
    resTrkCh := if sbasMode = SBAS_NONE then 0 else 1,
    maxTrkCh := 3,
    reserved1 := 0,
    enabled := if sbasMode = SBAS_NONE then 0 else 1,
    undefined0 := 0,
    sigCfgMask := 1,
    undefined1 := 0 }

/-- configureGNSS_GALILEO: the Galileo capability block, generated only
when Galileo capability was detected (the C function returns 0 blocks
otherwise). -/
def configureGNSS_GALILEO (capGalileo useGalileo : Bool) : List UbxGnssElement :=
  if capGalileo then
    [{ gnssId := GNSSID_GALILEO,
       resTrkCh := if useGalileo then 4 else 0,
       maxTrkCh := 8,
       reserved1 := 0,
       enabled := if useGalileo then 1 else 0,
       undefined0 := 0,
       sigCfgMask := 1,
       undefined1 := 0 }] else []

/-- The CFG-GNSS message assembled by configureGNSS: header fields plus the
capability blocks, with numConfigBlocks and the wire length derived from
the number of blocks used (sizeof header = 4, sizeof block = 8). -/
structure UbxGnssMsg where
  msg_class : Nat
  msg_id : Nat
  msgVer : Nat
  numTrkChHw : Nat
  numTrkChUse : Nat
  numConfigBlocks : Nat
  blocks : List UbxGnssElement
  length : Nat
deriving DecidableEq

/-- configureGNSS: SBAS block always, Galileo block only if detected. -/
def configureGNSS (capGalileo : Bool) (sbasMode : Nat) (useGalileo : Bool) : UbxGnssMsg :=
  let blocks := [configureGNSS_SBAS sbasMode] ++ configureGNSS_GALILEO capGalileo useGalileo
  { msg_class := CLASS_CFG,
    msg_id := MSG_CFG_GNSS,
    msgVer := 0,
    numTrkChHw := 0,
    numTrkChUse := 32,
    numConfigBlocks := blocks.length,
    blocks := blocks,
    length := 4 + 8 * blocks.length }

/-- The guard in gpsConfigure in front of the GNSS configuration step,
verbatim from the source: gpsState.hwVersion >= 80000. -/
def gpsConfigureGNSSCondition (hwVersion : Nat) : Bool :=
  hwVersion ≥ 80000

/-! ### Helper lemmas -/

/-- Shifting the char source of a cons string is the char source of its
tail. -/
theorem cstr_shift (c : Nat) (s : List Nat) :
    (fun i => cstr (c :: s) (i + 1)) = cstr s := by
  funext i
  simp [cstr]

/-- strncmp against a zero-free literal shorter than the count returns 0
exactly on the identical zero-free string. -/
theorem strncmp_cstr_eq_zero :
    ∀ (t s : List Nat) (n : Nat), 0 ∉ s → 0 ∉ t → t.length < n →
      (strncmp (cstr s) (cstr t) n = 0 ↔ s = t) := by
  intro t
  induction t with
  | nil =>
    intro s n hs _ hn
    cases n with
    | zero => omega
    | succ m =>
      cases s with
      | nil => simp [strncmp, cstr]
      | cons c s' =>
        have hc : c ≠ 0 := fun h => hs (by simp [h])
        have hstep :
            strncmp (cstr (c :: s')) (cstr []) (m + 1) = (c : Int) - (0 : Nat) := by
          simp only [strncmp]
          rw [if_pos (by simpa [cstr] using hc)]
          simp [cstr]
        rw [hstep]
        simp only [Nat.cast_zero, sub_zero]
        constructor
        · intro h
          exact absurd (by exact_mod_cast h) hc
        · intro h
          cases h
  | cons d t' ih =>
    intro s n hs ht hn
    have hd : d ≠ 0 := fun h => ht (by simp [h])
    cases n with
    | zero => simp at hn
    | succ m =>
      cases s with
      | nil =>
        have hstep :
            strncmp (cstr []) (cstr (d :: t')) (m + 1) = (0 : Nat) - (d : Int) := by
          simp only [strncmp]
          rw [if_pos (by simpa [cstr] using Ne.symm hd)]
          simp [cstr]
        rw [hstep]
        simp only [Nat.cast_zero, zero_sub, neg_eq_zero]
        constructor
        · intro h
          exact absurd (by exact_mod_cast h) (Ne.symm (a := (0 : Nat)) (fun h0 => hd h0.symm))
        · intro h
          cases h
      | cons c s' =>
        have hc : c ≠ 0 := fun h => hs (by simp [h])
        by_cases hcd : c = d
        · subst hcd
          have hrec :
              strncmp (cstr (c :: s')) (cstr (c :: t')) (m + 1) =
                strncmp (cstr s') (cstr t') m := by
            simp only [strncmp]
            rw [if_neg (by simp [cstr]), if_neg (by simpa [cstr] using hc),
              cstr_shift, cstr_shift]
          rw [hrec, ih s' m (fun h => hs (List.mem_cons_of_mem _ h))
            (fun h => ht (List.mem_cons_of_mem _ h)) (by simpa using Nat.lt_of_succ_lt_succ hn)]
          simp
        · have hstep :
              strncmp (cstr (c :: s')) (cstr (d :: t')) (m + 1) = (c : Int) - (d : Int) := by
            simp only [strncmp]
            rw [if_pos (by simpa [cstr] using hcd)]
            simp [cstr]
          rw [hstep]
          constructor
          · intro h
            exact absurd (by exact_mod_cast sub_eq_zero.mp h) hcd
          · intro h
            cases h
            exact absurd rfl hcd

/-- C7: the checksum engine updates the accumulator pair by a += byte then
b += a, both modulo 256, once per byte in wire order (the empty range
leaves the pair untouched), and the result is order-dependent: the
permuted byte sequences [1, 2] and [2, 1] yield different pairs. -/
theorem spec_C7 :
    (∀ (d : Nat) (rest : List Nat) (a b : Nat),
      _update_checksum (d :: rest) a b =
        _update_checksum rest ((a + d) % 256) ((b + (a + d) % 256) % 256))
    ∧ (∀ a b : Nat, _update_checksum [] a b = (a, b))
    ∧ List.Perm [1, 2] [2, 1]
    ∧ _update_checksum [1, 2] 0 0 ≠ _update_checksum [2, 1] 0 0 := by
  exact ⟨fun d rest a b => rfl, fun a b => rfl, List.Perm.swap 2 1 [], by decide⟩

/-- C8: gpsDecodeHardwareVersion, called with the 10-byte buffer size used
at its only call site, maps exactly the six known version strings to the
tiers 500, 600, 700, 800, 900, 1000 and every other zero-free string --
including proper prefix extensions -- to unknown (0). -/
theorem spec_C8 (s : List Nat) (hs : 0 ∉ s) :
    gpsDecodeHardwareVersion (cstr s) 10 =
      if s = hwVer5 then UBX_HW_VERSION_UBLOX5
      else if s = hwVer6 then UBX_HW_VERSION_UBLOX6
      else if s = hwVer7 then UBX_HW_VERSION_UBLOX7
      else if s = hwVer8 then UBX_HW_VERSION_UBLOX8
      else if s = hwVer9 then UBX_HW_VERSION_UBLOX9
      else if s = hwVer10 then UBX_HW_VERSION_UBLOX10
      else UBX_HW_VERSION_UNKNOWN := by
  have h5 := strncmp_cstr_eq_zero hwVer5 s 10 hs (by decide) (by decide)
  have h6 := strncmp_cstr_eq_zero hwVer6 s 10 hs (by decide) (by decide)
  have h7 := strncmp_cstr_eq_zero hwVer7 s 10 hs (by decide) (by decide)
  have h8 := strncmp_cstr_eq_zero hwVer8 s 10 hs (by decide) (by decide)
  have h9 := strncmp_cstr_eq_zero hwVer9 s 10 hs (by decide) (by decide)
  have h10 := strncmp_cstr_eq_zero hwVer10 s 10 hs (by decide) (by decide)
  simp only [gpsDecodeHardwareVersion, h5, h6, h7, h8, h9, h10]

/-- C8 witness: the version string "FFFFFFFF" decodes to the unknown
tier. -/
theorem spec_C8_witness :
    gpsDecodeHardwareVersion (cstr [70, 70, 70, 70, 70, 70, 70, 70]) 10 =
      UBX_HW_VERSION_UNKNOWN := by
  rw [spec_C8 [70, 70, 70, 70, 70, 70, 70, 70] (by decide)]
  decide

/-- C1: the CFG-GNSS payload built by configureGNSS always contains the
SBAS capability block and contains the Galileo block exactly when Galileo
capability was detected, but the sequencer guard in front of the step,
hwVersion >= 80000, is false at every detectable hardware generation tier
(the tier constants are 500..1000, the 8th-generation tier is 800), so the
command is never sent even when the tier is >= the 8th-generation tier:
the code contradicts the spec and its own comment at this point. -/
theorem spec_C1 :
    gpsConfigureGNSSCondition UBX_HW_VERSION_UBLOX8 = false
    ∧ gpsConfigureGNSSCondition UBX_HW_VERSION_UBLOX9 = false
    ∧ gpsConfigureGNSSCondition UBX_HW_VERSION_UBLOX10 = false
    ∧ UBX_HW_VERSION_UBLOX8 ≥ UBX_HW_VERSION_UBLOX8
    ∧ (∀ (m : Nat) (u : Bool),
        (configureGNSS true m u).blocks.map UbxGnssElement.gnssId =
          [GNSSID_SBAS, GNSSID_GALILEO]
        ∧ (configureGNSS false m u).blocks.map UbxGnssElement.gnssId = [GNSSID_SBAS]
        ∧ (configureGNSS true m u).numConfigBlocks = 2
        ∧ (configureGNSS false m u).numConfigBlocks = 1
        ∧ (configureGNSS true m u).length = 4 + 8 * 2
        ∧ (configureGNSS false m u).length = 4 + 8 * 1) := by
  exact ⟨rfl, rfl, rfl, le_refl _, fun m u => ⟨rfl, rfl, rfl, rfl, rfl, rfl⟩⟩

/-- C3: while an outstanding command is in the waiting state, an
acknowledge frame moves the tracker to acknowledged exactly when the
payload message-id byte equals the waiting id, a negative-acknowledge
frame symmetrically to negative-acknowledged, with the payload class byte
ignored; concretely, after sending command id 0x07, ack payload
{class 0x06, msg 0x07} yields acknowledged while payload {msg 0x08} leaves
the tracker waiting. -/
theorem spec_C3 :
    (∀ (s : UbloxState) (f : UbxFrame), s.ack_state = UBX_ACK_WAITING →
      (f.id = MSG_ACK_ACK →
        (applyFrame s f).1.ack_state =
          (if byteAt f.buf 1 = s.ack_waiting_msg then UBX_ACK_GOT_ACK
           else UBX_ACK_WAITING))
      ∧ (f.id = MSG_ACK_NACK →
        (applyFrame s f).1.ack_state =
          (if byteAt f.buf 1 = s.ack_waiting_msg then UBX_ACK_GOT_NAK
           else UBX_ACK_WAITING)))
    ∧ (∀ (s : UbloxState) (c q : Nat),
        (applyFrame (sendConfigMessageUBLOX s 7)
            ⟨c, MSG_ACK_ACK, 2, cstr [6, 7]⟩).1.ack_state = UBX_ACK_GOT_ACK
        ∧ (applyFrame (sendConfigMessageUBLOX s 7)
            ⟨c, MSG_ACK_ACK, 2, cstr [q % 256, 8]⟩).1.ack_state = UBX_ACK_WAITING) := by
  constructor
  · intro s f hw
    constructor
    · intro hid
      simp only [applyFrame, loadFrame, gpsParceFrameUBLOX, gpsParceDispatch, hid]
      norm_num [MSG_ACK_ACK, MSG_POSLLH, MSG_STATUS, MSG_SOL, MSG_VELNED, MSG_TIMEUTC,
        MSG_PVT, MSG_VER, hw, UBX_ACK_WAITING]
      split
      · split <;> simp_all
      · split <;> simp_all
    · intro hid
      simp only [applyFrame, loadFrame, gpsParceFrameUBLOX, gpsParceDispatch, hid]
      norm_num [MSG_ACK_NACK, MSG_ACK_ACK, MSG_POSLLH, MSG_STATUS, MSG_SOL, MSG_VELNED,
        MSG_TIMEUTC, MSG_PVT, MSG_VER, hw, UBX_ACK_WAITING]
      split
      · split <;> simp_all
      · split <;> simp_all
  · intro s c q
    constructor
    · simp only [applyFrame, loadFrame, sendConfigMessageUBLOX, gpsParceFrameUBLOX,
        gpsParceDispatch]
      norm_num [MSG_ACK_ACK, MSG_POSLLH, MSG_STATUS, MSG_SOL, MSG_VELNED, MSG_TIMEUTC,
        MSG_PVT, MSG_VER, UBX_ACK_WAITING, UBX_ACK_GOT_ACK, byteAt, cstr]
      split <;> rfl
    · simp only [applyFrame, loadFrame, sendConfigMessageUBLOX, gpsParceFrameUBLOX,
        gpsParceDispatch]
      norm_num [MSG_ACK_ACK, MSG_POSLLH, MSG_STATUS, MSG_SOL, MSG_VELNED, MSG_TIMEUTC,
        MSG_PVT, MSG_VER, UBX_ACK_WAITING, UBX_ACK_GOT_ACK, byteAt, cstr]
      split <;> rfl

/-- C3 witness: the concrete ack exchange of the claim, at the initial
state. -/
theorem spec_C3_witness :
    (applyFrame (sendConfigMessageUBLOX initialUbloxState 7)
        ⟨CLASS_CFG, MSG_ACK_ACK, 2, cstr [6, 7]⟩).1.ack_state = UBX_ACK_GOT_ACK
    ∧ (applyFrame (sendConfigMessageUBLOX initialUbloxState 7)
        ⟨CLASS_CFG, MSG_ACK_ACK, 2, cstr [6, 8]⟩).1.ack_state = UBX_ACK_WAITING :=
  (spec_C3.2 initialUbloxState CLASS_CFG 6)

/-! Dispatch equations: the switch branch taken for each message id, as
plain rewriting lemmas. -/

/-- Dispatch equation for a position frame. -/
theorem gpsParceDispatch_posllh (s : UbloxState) (c p : Nat) (b : Nat → Nat) :
    gpsParceDispatch (loadFrame s ⟨c, MSG_POSLLH, p, b⟩) =
      some { loadFrame s ⟨c, MSG_POSLLH, p, b⟩ with
        sol :=
          { (if s.next_fix_type ≠ GPS_NO_FIX then
               { s.sol with fixType := s.next_fix_type }
             else s.sol) with
            lon := toInt32 (le32 b 4),
            lat := toInt32 (le32 b 8),
            alt := Int.tdiv (toInt32 (le32 b 16)) 10,
            eph := gpsConstrainEPE (le32 b 20 / 10),
            epv := gpsConstrainEPE (le32 b 24 / 10),
            validEPE := true },
        new_position := true } := rfl

/-- Dispatch equation for a status frame. -/
theorem gpsParceDispatch_status (s : UbloxState) (c p : Nat) (b : Nat → Nat) :
    gpsParceDispatch (loadFrame s ⟨c, MSG_STATUS, p, b⟩) =
      some { loadFrame s ⟨c, MSG_STATUS, p, b⟩ with
        next_fix_type := gpsMapFixType ((byteAt b 5 &&& 1) ≠ 0) (byteAt b 4),
        sol :=
          if gpsMapFixType ((byteAt b 5 &&& 1) ≠ 0) (byteAt b 4) = GPS_NO_FIX then
            { s.sol with fixType := GPS_NO_FIX }
          else s.sol } := rfl

/-- Dispatch equation for a solution frame. -/
theorem gpsParceDispatch_sol (s : UbloxState) (c p : Nat) (b : Nat → Nat) :
    gpsParceDispatch (loadFrame s ⟨c, MSG_SOL, p, b⟩) =
      some { loadFrame s ⟨c, MSG_SOL, p, b⟩ with
        next_fix_type := gpsMapFixType ((byteAt b 11 &&& 1) ≠ 0) (byteAt b 10),
        sol :=
          { (if gpsMapFixType ((byteAt b 11 &&& 1) ≠ 0) (byteAt b 10) = GPS_NO_FIX then
               { s.sol with fixType := GPS_NO_FIX }
             else s.sol) with
            numSat := byteAt b 47,
            hdop := gpsConstrainHDOP (le16 b 44) } } := rfl

/-- Dispatch equation for a velocity frame. -/
theorem gpsParceDispatch_velned (s : UbloxState) (c p : Nat) (b : Nat → Nat) :
    gpsParceDispatch (loadFrame s ⟨c, MSG_VELNED, p, b⟩) =
      some { loadFrame s ⟨c, MSG_VELNED, p, b⟩ with
        sol := { s.sol with
          groundSpeed := (le32 b 20 : Int),
          groundCourse := (Int.tdiv (toInt32 (le32 b 24)) 10000 % 65536).toNat,
          velN := toInt32 (le32 b 4),
          velE := toInt32 (le32 b 8),
          velD := toInt32 (le32 b 12),
          validVelNE := true,
          validVelD := true },
        new_speed := true } := rfl

/-- Dispatch equation for a UTC-time frame. -/
theorem gpsParceDispatch_timeutc (s : UbloxState) (c p : Nat) (b : Nat → Nat) :
    gpsParceDispatch (loadFrame s ⟨c, MSG_TIMEUTC, p, b⟩) =
      some { loadFrame s ⟨c, MSG_TIMEUTC, p, b⟩ with
        sol :=
          if (byteAt b 19 &&& 1) ≠ 0 ∧ (byteAt b 19 &&& 2) ≠ 0 then
            { s.sol with
              year := le16 b 12,
              month := byteAt b 14,
              day := byteAt b 15,
              hours := byteAt b 16,
              minutes := byteAt b 17,
              seconds := byteAt b 18,
              millis := Int.tdiv (toInt32 (le32 b 8)) (1000 * 1000),
              validTime := true }
          else { s.sol with validTime := false } } := rfl

/-- Dispatch equation for a combined position-velocity-time frame. -/
theorem gpsParceDispatch_pvt (s : UbloxState) (c p : Nat) (b : Nat → Nat) :
    gpsParceDispatch (loadFrame s ⟨c, MSG_PVT, p, b⟩) =
      some { loadFrame s ⟨c, MSG_PVT, p, b⟩ with
        next_fix_type := gpsMapFixType ((byteAt b 21 &&& 1) ≠ 0) (byteAt b 20),
        sol :=
          { (if (byteAt b 11 &&& 1) ≠ 0 ∧ (byteAt b 11 &&& 2) ≠ 0 then
               { s.sol with
                 year := le16 b 4,
                 month := byteAt b 6,
                 day := byteAt b 7,
                 hours := byteAt b 8,
                 minutes := byteAt b 9,
                 seconds := byteAt b 10,
                 millis := Int.tdiv (toInt32 (le32 b 16)) (1000 * 1000),
                 validTime := true }
             else { s.sol with validTime := false }) with
            fixType := gpsMapFixType ((byteAt b 21 &&& 1) ≠ 0) (byteAt b 20),
            lon := toInt32 (le32 b 24),
            lat := toInt32 (le32 b 28),
            alt := Int.tdiv (toInt32 (le32 b 36)) 10,
            velN := Int.tdiv (toInt32 (le32 b 48)) 10,
            velE := Int.tdiv (toInt32 (le32 b 52)) 10,
            velD := Int.tdiv (toInt32 (le32 b 56)) 10,
            groundSpeed := Int.tdiv (toInt32 (le32 b 60)) 10,
            groundCourse := (Int.tdiv (toInt32 (le32 b 64)) 10000 % 65536).toNat,
            numSat := byteAt b 23,
            eph := gpsConstrainEPE (le32 b 40 / 10),
            epv := gpsConstrainEPE (le32 b 44 / 10),
            hdop := gpsConstrainHDOP (le16 b 76),
            validVelNE := true,
            validVelD := true,
            validEPE := true },
        new_position := true,
        new_speed := true } := rfl

/-- Dispatch equation for a version-info frame. -/
theorem gpsParceDispatch_ver (s : UbloxState) (c p : Nat) (b : Nat → Nat) :
    gpsParceDispatch (loadFrame s ⟨c, MSG_VER, p, b⟩) =
      some { loadFrame s ⟨c, MSG_VER, p, b⟩ with
        hwVersion :=
          if c = CLASS_MON then
            gpsDecodeHardwareVersion (fun i => byteAt b (30 + i)) 10
          else s.hwVersion,
        capGalileo :=
          if c = CLASS_MON ∧
              gpsDecodeHardwareVersion (fun i => byteAt b (30 + i)) 10 ≥
                UBX_HW_VERSION_UBLOX8 ∧
              byteAt b 9 > 50 then
            (if scanGalileo b p 40 then true else s.capGalileo)
          else s.capGalileo } := rfl

/-- Dispatch equation for an acknowledge frame. -/
theorem gpsParceDispatch_ack (s : UbloxState) (c p : Nat) (b : Nat → Nat) :
    gpsParceDispatch (loadFrame s ⟨c, MSG_ACK_ACK, p, b⟩) =
      some { loadFrame s ⟨c, MSG_ACK_ACK, p, b⟩ with
        ack_state :=
          if s.ack_state = UBX_ACK_WAITING ∧ byteAt b 1 = s.ack_waiting_msg then
            UBX_ACK_GOT_ACK
          else s.ack_state } := rfl

/-- Dispatch equation for a negative-acknowledge frame. -/
theorem gpsParceDispatch_nack (s : UbloxState) (c p : Nat) (b : Nat → Nat) :
    gpsParceDispatch (loadFrame s ⟨c, MSG_ACK_NACK, p, b⟩) =
      some { loadFrame s ⟨c, MSG_ACK_NACK, p, b⟩ with
        ack_state :=
          if s.ack_state = UBX_ACK_WAITING ∧ byteAt b 1 = s.ack_waiting_msg then
            UBX_ACK_GOT_NAK
          else s.ack_state } := rfl

/-- Dispatch equation for an unrecognized message id: the default case of
the switch. -/
theorem gpsParceDispatch_default (s : UbloxState)
    (h2 : s.msg_id ≠ MSG_POSLLH) (h3 : s.msg_id ≠ MSG_STATUS)
    (h6 : s.msg_id ≠ MSG_SOL) (h18 : s.msg_id ≠ MSG_VELNED)
    (h33 : s.msg_id ≠ MSG_TIMEUTC) (h7 : s.msg_id ≠ MSG_PVT)
    (h4 : s.msg_id ≠ MSG_VER) (h1 : s.msg_id ≠ MSG_ACK_ACK)
    (h0 : s.msg_id ≠ MSG_ACK_NACK) :
    gpsParceDispatch s = none := by
  unfold gpsParceDispatch
  rw [if_neg h2, if_neg h3, if_neg h6, if_neg h18, if_neg h33, if_neg h7, if_neg h4,
    if_neg h1, if_neg h0]

/-- The epoch-completion step applied to a recognized dispatch result. -/
theorem gpsParceFrame_of_dispatch (s Y : UbloxState)
    (h : gpsParceDispatch s = some Y) :
    gpsParceFrameUBLOX s =
      if Y.new_position && Y.new_speed then
        ({ Y with new_position := false, new_speed := false }, true)
      else (Y, false) := by
  simp only [gpsParceFrameUBLOX, h]

/-- An unrecognized message returns false immediately and changes
nothing. -/
theorem gpsParceFrame_of_dispatch_none (s : UbloxState)
    (h : gpsParceDispatch s = none) :
    gpsParceFrameUBLOX s = (s, false) := by
  simp only [gpsParceFrameUBLOX, h]

/-- The completion step never changes the published solution. -/
theorem gpsParceFrame_sol_of_dispatch (s Y : UbloxState)
    (h : gpsParceDispatch s = some Y) :
    (gpsParceFrameUBLOX s).1.sol = Y.sol := by
  rw [gpsParceFrame_of_dispatch s Y h]
  split <;> rfl

/-- The completion step never changes the ack tracker. -/
theorem gpsParceFrame_ack_of_dispatch (s Y : UbloxState)
    (h : gpsParceDispatch s = some Y) :
    (gpsParceFrameUBLOX s).1.ack_state = Y.ack_state := by
  rw [gpsParceFrame_of_dispatch s Y h]
  split <;> rfl

/-- C4: a UTC-time frame sets the timestamp fields and the time-valid flag
exactly when both bit 0 (date valid) and bit 1 (time valid) of the
validity byte are set, with milliseconds the nanosecond field divided by
1,000,000; otherwise no timestamp field changes and the time-valid flag is
cleared.  Validity byte 3 is accepted, validity byte 1 is rejected. -/
theorem spec_C4 (s : UbloxState) (f : UbxFrame) (hid : f.id = MSG_TIMEUTC) :
    (((byteAt f.buf 19 &&& 1) ≠ 0 ∧ (byteAt f.buf 19 &&& 2) ≠ 0) →
      (applyFrame s f).1.sol.validTime = true
      ∧ (applyFrame s f).1.sol.millis = Int.tdiv (toInt32 (le32 f.buf 8)) 1000000
      ∧ (applyFrame s f).1.sol.year = le16 f.buf 12
      ∧ (applyFrame s f).1.sol.month = byteAt f.buf 14
      ∧ (applyFrame s f).1.sol.day = byteAt f.buf 15
      ∧ (applyFrame s f).1.sol.hours = byteAt f.buf 16
      ∧ (applyFrame s f).1.sol.minutes = byteAt f.buf 17
      ∧ (applyFrame s f).1.sol.seconds = byteAt f.buf 18)
    ∧ (¬((byteAt f.buf 19 &&& 1) ≠ 0 ∧ (byteAt f.buf 19 &&& 2) ≠ 0) →
      (applyFrame s f).1.sol.validTime = false
      ∧ (applyFrame s f).1.sol.millis = s.sol.millis
      ∧ (applyFrame s f).1.sol.year = s.sol.year
      ∧ (applyFrame s f).1.sol.month = s.sol.month
      ∧ (applyFrame s f).1.sol.day = s.sol.day
      ∧ (applyFrame s f).1.sol.hours = s.sol.hours
      ∧ (applyFrame s f).1.sol.minutes = s.sol.minutes
      ∧ (applyFrame s f).1.sol.seconds = s.sol.seconds)
    ∧ (byteAt f.buf 19 = 3 → (applyFrame s f).1.sol.validTime = true)
    ∧ (byteAt f.buf 19 = 1 → (applyFrame s f).1.sol.validTime = false) := by
  obtain ⟨fc, fi, fp, fb⟩ := f
  simp only at hid
  subst hid
  have hsol : (applyFrame s ⟨fc, MSG_TIMEUTC, fp, fb⟩).1.sol =
      (if (byteAt fb 19 &&& 1) ≠ 0 ∧ (byteAt fb 19 &&& 2) ≠ 0 then
        { s.sol with
          year := le16 fb 12,
          month := byteAt fb 14,
          day := byteAt fb 15,
          hours := byteAt fb 16,
          minutes := byteAt fb 17,
          seconds := byteAt fb 18,
          millis := Int.tdiv (toInt32 (le32 fb 8)) (1000 * 1000),
          validTime := true }
      else { s.sol with validTime := false }) := by
    rw [applyFrame, gpsParceFrame_sol_of_dispatch _ _ (gpsParceDispatch_timeutc s fc fp fb)]
  refine ⟨fun hv => ?_, fun hv => ?_, fun hv => ?_, fun hv => ?_⟩
  · rw [hsol, if_pos hv]
    exact ⟨rfl, by norm_num, rfl, rfl, rfl, rfl, rfl, rfl⟩
  · rw [hsol, if_neg hv]
    exact ⟨rfl, rfl, rfl, rfl, rfl, rfl, rfl, rfl⟩
  · rw [hsol, if_pos (show (byteAt fb 19 &&& 1) ≠ 0 ∧ (byteAt fb 19 &&& 2) ≠ 0 by
      rw [hv]; exact ⟨by decide, by decide⟩)]
  · rw [hsol, if_neg (show ¬((byteAt fb 19 &&& 1) ≠ 0 ∧ (byteAt fb 19 &&& 2) ≠ 0) by
      rw [hv]; decide)]

/-- C4 witness: at the initial state, validity byte 3 is accepted. -/
theorem spec_C4_witness :
    (applyFrame initialUbloxState
        ⟨CLASS_NAV, MSG_TIMEUTC, 20, fun i => if i = 19 then 3 else 0⟩).1.sol.validTime
      = true :=
  (spec_C4 initialUbloxState
    ⟨CLASS_NAV, MSG_TIMEUTC, 20, fun i => if i = 19 then 3 else 0⟩ rfl).2.2.1 (by decide)

/-- C9: a combined PVT frame stores the NED velocity components and the
2-D ground speed divided by 10, while a separate VELNED frame stores them
verbatim; both divide the 2-D heading by 10000 (with the uint16_t cast the
source writes).  With equal raw wire values, the PVT-stored velocity is
the VELNED-stored velocity divided by 10, and the stored heading agrees. -/
theorem spec_C9 (s : UbloxState) (f g : UbxFrame)
    (hf : f.id = MSG_PVT) (hg : g.id = MSG_VELNED) :
    ((applyFrame s f).1.sol.velN = Int.tdiv (toInt32 (le32 f.buf 48)) 10
      ∧ (applyFrame s f).1.sol.velE = Int.tdiv (toInt32 (le32 f.buf 52)) 10
      ∧ (applyFrame s f).1.sol.velD = Int.tdiv (toInt32 (le32 f.buf 56)) 10
      ∧ (applyFrame s f).1.sol.groundSpeed = Int.tdiv (toInt32 (le32 f.buf 60)) 10
      ∧ (applyFrame s f).1.sol.groundCourse =
          (Int.tdiv (toInt32 (le32 f.buf 64)) 10000 % 65536).toNat)
    ∧ ((applyFrame s g).1.sol.velN = toInt32 (le32 g.buf 4)
      ∧ (applyFrame s g).1.sol.velE = toInt32 (le32 g.buf 8)
      ∧ (applyFrame s g).1.sol.velD = toInt32 (le32 g.buf 12)
      ∧ (applyFrame s g).1.sol.groundSpeed = (le32 g.buf 20 : Int)
      ∧ (applyFrame s g).1.sol.groundCourse =
          (Int.tdiv (toInt32 (le32 g.buf 24)) 10000 % 65536).toNat)
    ∧ (le32 f.buf 48 = le32 g.buf 4 →
        (applyFrame s f).1.sol.velN = Int.tdiv ((applyFrame s g).1.sol.velN) 10)
    ∧ (le32 f.buf 64 = le32 g.buf 24 →
        (applyFrame s f).1.sol.groundCourse = (applyFrame s g).1.sol.groundCourse) := by
  obtain ⟨fc, fi, fp, fb⟩ := f
  obtain ⟨gc, gi, gp, gb⟩ := g
  simp only at hf hg
  subst hf
  subst hg
  have hfN : (applyFrame s ⟨fc, MSG_PVT, fp, fb⟩).1.sol.velN =
      Int.tdiv (toInt32 (le32 fb 48)) 10 := by
    rw [applyFrame, gpsParceFrame_sol_of_dispatch _ _ (gpsParceDispatch_pvt s fc fp fb)]
  have hfE : (applyFrame s ⟨fc, MSG_PVT, fp, fb⟩).1.sol.velE =
      Int.tdiv (toInt32 (le32 fb 52)) 10 := by
    rw [applyFrame, gpsParceFrame_sol_of_dispatch _ _ (gpsParceDispatch_pvt s fc fp fb)]
  have hfD : (applyFrame s ⟨fc, MSG_PVT, fp, fb⟩).1.sol.velD =
      Int.tdiv (toInt32 (le32 fb 56)) 10 := by
    rw [applyFrame, gpsParceFrame_sol_of_dispatch _ _ (gpsParceDispatch_pvt s fc fp fb)]
  have hfS : (applyFrame s ⟨fc, MSG_PVT, fp, fb⟩).1.sol.groundSpeed =
      Int.tdiv (toInt32 (le32 fb 60)) 10 := by
    rw [applyFrame, gpsParceFrame_sol_of_dispatch _ _ (gpsParceDispatch_pvt s fc fp fb)]
  have hfC : (applyFrame s ⟨fc, MSG_PVT, fp, fb⟩).1.sol.groundCourse =
      (Int.tdiv (toInt32 (le32 fb 64)) 10000 % 65536).toNat := by
    rw [applyFrame, gpsParceFrame_sol_of_dispatch _ _ (gpsParceDispatch_pvt s fc fp fb)]
  have hgN : (applyFrame s ⟨gc, MSG_VELNED, gp, gb⟩).1.sol.velN = toInt32 (le32 gb 4) := by
    rw [applyFrame, gpsParceFrame_sol_of_dispatch _ _ (gpsParceDispatch_velned s gc gp gb)]
  have hgE : (applyFrame s ⟨gc, MSG_VELNED, gp, gb⟩).1.sol.velE = toInt32 (le32 gb 8) := by
    rw [applyFrame, gpsParceFrame_sol_of_dispatch _ _ (gpsParceDispatch_velned s gc gp gb)]
  have hgD : (applyFrame s ⟨gc, MSG_VELNED, gp, gb⟩).1.sol.velD = toInt32 (le32 gb 12) := by
    rw [applyFrame, gpsParceFrame_sol_of_dispatch _ _ (gpsParceDispatch_velned s gc gp gb)]
  have hgS : (applyFrame s ⟨gc, MSG_VELNED, gp, gb⟩).1.sol.groundSpeed =
      (le32 gb 20 : Int) := by
    rw [applyFrame, gpsParceFrame_sol_of_dispatch _ _ (gpsParceDispatch_velned s gc gp gb)]
  have hgC : (applyFrame s ⟨gc, MSG_VELNED, gp, gb⟩).1.sol.groundCourse =
      (Int.tdiv (toInt32 (le32 gb 24)) 10000 % 65536).toNat := by
    rw [applyFrame, gpsParceFrame_sol_of_dispatch _ _ (gpsParceDispatch_velned s gc gp gb)]
  refine ⟨⟨hfN, hfE, hfD, hfS, hfC⟩, ⟨hgN, hgE, hgD, hgS, hgC⟩, fun he => ?_, fun he => ?_⟩
  · rw [hfN, hgN, he]
  · rw [hfC, hgC, he]

/-- C9 witness: the PVT scaling at a concrete frame. -/
theorem spec_C9_witness :
    (applyFrame initialUbloxState ⟨CLASS_NAV, MSG_PVT, 84, cstr []⟩).1.sol.groundSpeed
      = Int.tdiv (toInt32 (le32 (cstr []) 60)) 10 :=
  (spec_C9 initialUbloxState ⟨CLASS_NAV, MSG_PVT, 84, cstr []⟩
    ⟨CLASS_NAV, MSG_VELNED, 36, cstr []⟩ rfl rfl).1.2.2.2.1

/-- The observable outcome of the mapper is unchanged when the two dispatch
results differ only in the recorded wire class. -/
theorem parse_obs_of_dispatch_map (s1 s2 : UbloxState) (c : Nat)
    (h : gpsParceDispatch s1 = (gpsParceDispatch s2).map (fun t => { t with cls := c }))
    (hsol : s1.sol = s2.sol) (hack : s1.ack_state = s2.ack_state) :
    (gpsParceFrameUBLOX s1).2 = (gpsParceFrameUBLOX s2).2
    ∧ (gpsParceFrameUBLOX s1).1.sol = (gpsParceFrameUBLOX s2).1.sol
    ∧ (gpsParceFrameUBLOX s1).1.ack_state = (gpsParceFrameUBLOX s2).1.ack_state := by
  cases hd : gpsParceDispatch s2 with
  | none =>
    rw [hd] at h
    simp only [Option.map_none'] at h
    rw [gpsParceFrame_of_dispatch_none _ h, gpsParceFrame_of_dispatch_none _ hd]
    exact ⟨rfl, hsol, hack⟩
  | some Y =>
    rw [hd] at h
    simp only [Option.map_some'] at h
    rw [gpsParceFrame_of_dispatch _ _ h, gpsParceFrame_of_dispatch _ _ hd]
    have hcc : (({ Y with cls := c } : UbloxState).new_position
        && ({ Y with cls := c } : UbloxState).new_speed)
        = (Y.new_position && Y.new_speed) := rfl
    rw [hcc]
    by_cases hc : (Y.new_position && Y.new_speed) = true
    · rw [if_pos hc, if_pos hc]
      exact ⟨rfl, rfl, rfl⟩
    · rw [if_neg hc, if_neg hc]
      exact ⟨rfl, rfl, rfl⟩

/-- C2 counterexample: the claim says a frame whose id names a navigation
message but whose class is not the navigation class leaves the solution
untouched; the code dispatches on the id alone, so a position-id frame
carried under the acknowledge class still overwrites the solution
longitude. -/
theorem spec_C2_counterexample :
    CLASS_ACK ≠ CLASS_NAV
    ∧ initialUbloxState.sol.lon = 0
    ∧ (applyFrame initialUbloxState
        ⟨CLASS_ACK, MSG_POSLLH, 28, fun i => if i = 4 then 64 else 0⟩).1.sol.lon = 64 := by
  refine ⟨by decide, rfl, ?_⟩
  rw [applyFrame, gpsParceFrame_sol_of_dispatch _ _
    (gpsParceDispatch_posllh initialUbloxState CLASS_ACK 28 (fun i => if i = 4 then 64 else 0))]
  decide

/-- C2 (amended): the mapper dispatches on the message id alone; the class
byte is consulted only by the version-info handler.  For every other id the
epoch result, the solution and the ack tracker are the same whatever the
class byte holds, and an id outside the recognized set is ignored without
touching the solution or counting an error. -/
theorem spec_C2_amended :
    (∀ (s : UbloxState) (f : UbxFrame) (c : Nat), f.id ≠ MSG_VER →
      gpsParceDispatch (loadFrame s { f with cls := c }) =
        (gpsParceDispatch (loadFrame s f)).map (fun t => { t with cls := c })
      ∧ (applyFrame s { f with cls := c }).2 = (applyFrame s f).2
      ∧ (applyFrame s { f with cls := c }).1.sol = (applyFrame s f).1.sol
      ∧ (applyFrame s { f with cls := c }).1.ack_state = (applyFrame s f).1.ack_state)
    ∧ (∀ (s : UbloxState) (f : UbxFrame),
        f.id ∉ ([MSG_ACK_NACK, MSG_ACK_ACK, MSG_POSLLH, MSG_STATUS, MSG_VER, MSG_SOL,
          MSG_PVT, MSG_VELNED, MSG_TIMEUTC] : List Nat) →
        applyFrame s f = (loadFrame s f, false) ∧ (loadFrame s f).sol = s.sol
        ∧ (loadFrame s f).errors = s.errors) := by
  constructor
  · intro s f c hv
    obtain ⟨fc, fi, fp, fb⟩ := f
    dsimp only at hv ⊢
    have hmap : gpsParceDispatch (loadFrame s ⟨c, fi, fp, fb⟩) =
        (gpsParceDispatch (loadFrame s ⟨fc, fi, fp, fb⟩)).map
          (fun t => { t with cls := c }) := by
      by_cases h2 : fi = MSG_POSLLH
      · subst h2
        rw [gpsParceDispatch_posllh s c fp fb, gpsParceDispatch_posllh s fc fp fb]
        rfl
      by_cases h3 : fi = MSG_STATUS
      · subst h3
        rw [gpsParceDispatch_status s c fp fb, gpsParceDispatch_status s fc fp fb]
        rfl
      by_cases h6 : fi = MSG_SOL
      · subst h6
        rw [gpsParceDispatch_sol s c fp fb, gpsParceDispatch_sol s fc fp fb]
        rfl
      by_cases h18 : fi = MSG_VELNED
      · subst h18
        rw [gpsParceDispatch_velned s c fp fb, gpsParceDispatch_velned s fc fp fb]
        rfl
      by_cases h33 : fi = MSG_TIMEUTC
      · subst h33
        rw [gpsParceDispatch_timeutc s c fp fb, gpsParceDispatch_timeutc s fc fp fb]
        rfl
      by_cases h7 : fi = MSG_PVT
      · subst h7
        rw [gpsParceDispatch_pvt s c fp fb, gpsParceDispatch_pvt s fc fp fb]
        rfl
      by_cases h1 : fi = MSG_ACK_ACK
      · subst h1
        rw [gpsParceDispatch_ack s c fp fb, gpsParceDispatch_ack s fc fp fb]
        rfl
      by_cases h0 : fi = MSG_ACK_NACK
      · subst h0
        rw [gpsParceDispatch_nack s c fp fb, gpsParceDispatch_nack s fc fp fb]
        rfl
      rw [gpsParceDispatch_default _ h2 h3 h6 h18 h33 h7 hv h1 h0,
        gpsParceDispatch_default _ h2 h3 h6 h18 h33 h7 hv h1 h0]
      rfl
    have hobs := parse_obs_of_dispatch_map (loadFrame s ⟨c, fi, fp, fb⟩)
      (loadFrame s ⟨fc, fi, fp, fb⟩) c hmap rfl rfl
    exact ⟨hmap, hobs.1, hobs.2.1, hobs.2.2⟩
  · intro s f hn
    obtain ⟨fc, fi, fp, fb⟩ := f
    simp only [List.mem_cons, List.not_mem_nil, or_false, not_or] at hn
    obtain ⟨h0, h1, h2, h3, h4, h6, h7, h18, h33⟩ := hn
    have hd : gpsParceDispatch (loadFrame s ⟨fc, fi, fp, fb⟩) = none :=
      gpsParceDispatch_default _ h2 h3 h6 h18 h33 h7 h4 h1 h0
    exact ⟨gpsParceFrame_of_dispatch_none _ hd, rfl, rfl⟩

/-- C2 witness: a position-id frame delivered under the acknowledge class
yields the same solution as under the navigation class. -/
theorem spec_C2_amended_witness :
    (applyFrame initialUbloxState ⟨CLASS_ACK, MSG_POSLLH, 28, cstr []⟩).1.sol =
      (applyFrame initialUbloxState ⟨CLASS_NAV, MSG_POSLLH, 28, cstr []⟩).1.sol :=
  (spec_C2_amended.1 initialUbloxState ⟨CLASS_NAV, MSG_POSLLH, 28, cstr []⟩ CLASS_ACK
    (by decide)).2.2.1

/-! Step equations for the frame decoder. -/

/-- Decoder equation in the sync-1 search state. -/
theorem gpsNewFrame_step0 (s : UbloxState) (d : Nat) (h : s.step = 0) :
    gpsNewFrameUBLOX s d =
      (if d % 256 = PREAMBLE1 then { s with skip_packet := false, step := 1 } else s,
        false) := by
  unfold gpsNewFrameUBLOX
  rw [h]
  norm_num

/-- Decoder equation in the sync-2 state. -/
theorem gpsNewFrame_step1 (s : UbloxState) (d : Nat) (h : s.step = 1) :
    gpsNewFrameUBLOX s d =
      (if d % 256 ≠ PREAMBLE2 then { s with step := 0 } else { s with step := 2 },
        false) := by
  unfold gpsNewFrameUBLOX
  rw [h]
  norm_num

/-- Decoder equation in the class state. -/
theorem gpsNewFrame_step2 (s : UbloxState) (d : Nat) (h : s.step = 2) :
    gpsNewFrameUBLOX s d =
      ({ s with step := 3, cls := d % 256, ck_a := d % 256, ck_b := d % 256 },
        false) := by
  unfold gpsNewFrameUBLOX
  rw [h]
  norm_num

/-- Decoder equation in the id state. -/
theorem gpsNewFrame_step3 (s : UbloxState) (d : Nat) (h : s.step = 3) :
    gpsNewFrameUBLOX s d =
      ({ s with
         step := 4,
         ck_a := (s.ck_a + d % 256) % 256,
         ck_b := (s.ck_b + (s.ck_a + d % 256) % 256) % 256,
         msg_id := d % 256 }, false) := by
  unfold gpsNewFrameUBLOX
  rw [h]
  norm_num

/-- Decoder equation in the length-low state. -/
theorem gpsNewFrame_step4 (s : UbloxState) (d : Nat) (h : s.step = 4) :
    gpsNewFrameUBLOX s d =
      ({ s with
         step := 5,
         ck_a := (s.ck_a + d % 256) % 256,
         ck_b := (s.ck_b + (s.ck_a + d % 256) % 256) % 256,
         payload_length := d % 256 }, false) := by
  unfold gpsNewFrameUBLOX
  rw [h]
  norm_num

/-- Decoder equation in the length-high state: an oversized combined
length records an error and restarts the sync search. -/
theorem gpsNewFrame_step5 (s : UbloxState) (d : Nat) (h : s.step = 5) :
    gpsNewFrameUBLOX s d =
      (if s.payload_length ||| ((d % 256) <<< 8 % 65536) > MAX_UBLOX_PAYLOAD_SIZE then
        ({ s with
           step := 0,
           ck_a := (s.ck_a + d % 256) % 256,
           ck_b := (s.ck_b + (s.ck_a + d % 256) % 256) % 256,
           payload_length := s.payload_length ||| ((d % 256) <<< 8 % 65536),
           errors := s.errors + 1 }, false)
      else
        ({ s with
           step := if s.payload_length ||| ((d % 256) <<< 8 % 65536) = 0 then 7 else 6,
           ck_a := (s.ck_a + d % 256) % 256,
           ck_b := (s.ck_b + (s.ck_a + d % 256) % 256) % 256,
           payload_length := s.payload_length ||| ((d % 256) <<< 8 % 65536),
           payload_counter := 0 }, false)) := by
  unfold gpsNewFrameUBLOX
  rw [h]
  norm_num

/-- Decoder equation in the payload state: the store is guarded by the
buffer capacity. -/
theorem gpsNewFrame_step6 (s : UbloxState) (d : Nat) (h : s.step = 6) :
    gpsNewFrameUBLOX s d =
      ({ s with
         ck_a := (s.ck_a + d % 256) % 256,
         ck_b := (s.ck_b + (s.ck_a + d % 256) % 256) % 256,
         buffer :=
           if s.payload_counter < MAX_UBLOX_PAYLOAD_SIZE then
             fun i => if i = s.payload_counter then d % 256 else s.buffer i
           else s.buffer,
         step := if (s.payload_counter : Int) = (s.payload_length : Int) - 1 then 7
           else s.step,
         payload_counter := (s.payload_counter + 1) % 65536 }, false) := by
  unfold gpsNewFrameUBLOX
  rw [h]
  norm_num

/-- Decoder equation in the checksum-A state. -/
theorem gpsNewFrame_step7 (s : UbloxState) (d : Nat) (h : s.step = 7) :
    gpsNewFrameUBLOX s d =
      (if s.ck_a ≠ d % 256 then
        ({ s with step := 0, skip_packet := true, errors := s.errors + 1 }, false)
      else ({ s with step := 8 }, false)) := by
  unfold gpsNewFrameUBLOX
  rw [h]
  norm_num

/-- Decoder equation in the checksum-B state. -/
theorem gpsNewFrame_step8 (s : UbloxState) (d : Nat) (h : s.step = 8) :
    gpsNewFrameUBLOX s d =
      (if s.ck_b ≠ d % 256 then
        ({ s with step := 0, errors := s.errors + 1 }, false)
      else if s.skip_packet then
        ({ s with step := 0, packetCount := s.packetCount + 1 }, false)
      else gpsParceFrameUBLOX { s with step := 0, packetCount := s.packetCount + 1 }) := by
  unfold gpsNewFrameUBLOX
  rw [h]
  norm_num

/-- Decoder equation outside the nine states (unreachable): no effect. -/
theorem gpsNewFrame_stepHigh (s : UbloxState) (d : Nat) (h0 : s.step ≠ 0)
    (h1 : s.step ≠ 1) (h2 : s.step ≠ 2) (h3 : s.step ≠ 3) (h4 : s.step ≠ 4)
    (h5 : s.step ≠ 5) (h6 : s.step ≠ 6) (h7 : s.step ≠ 7) (h8 : s.step ≠ 8) :
    gpsNewFrameUBLOX s d = (s, false) := by
  unfold gpsNewFrameUBLOX
  rw [if_neg h0, if_neg h1, if_neg h2, if_neg h3, if_neg h4, if_neg h5, if_neg h6,
    if_neg h7, if_neg h8]

/-- The dispatch switch never touches the decoder registers, the receive
buffer or the statistics counters. -/
theorem gpsParceDispatch_preserves (s Y : UbloxState)
    (h : gpsParceDispatch s = some Y) :
    Y.step = s.step ∧ Y.skip_packet = s.skip_packet ∧ Y.buffer = s.buffer
    ∧ Y.errors = s.errors ∧ Y.packetCount = s.packetCount := by
  have e : loadFrame s ⟨s.cls, s.msg_id, s.payload_length, s.buffer⟩ = s := rfl
  by_cases h2 : s.msg_id = MSG_POSLLH
  · have hd := gpsParceDispatch_posllh s s.cls s.payload_length s.buffer
    rw [← h2, e] at hd
    rw [hd] at h
    injection h with h
    subst h
    exact ⟨rfl, rfl, rfl, rfl, rfl⟩
  by_cases h3 : s.msg_id = MSG_STATUS
  · have hd := gpsParceDispatch_status s s.cls s.payload_length s.buffer
    rw [← h3, e] at hd
    rw [hd] at h
    injection h with h
    subst h
    exact ⟨rfl, rfl, rfl, rfl, rfl⟩
  by_cases h6 : s.msg_id = MSG_SOL
  · have hd := gpsParceDispatch_sol s s.cls s.payload_length s.buffer
    rw [← h6, e] at hd
    rw [hd] at h
    injection h with h
    subst h
    exact ⟨rfl, rfl, rfl, rfl, rfl⟩
  by_cases h18 : s.msg_id = MSG_VELNED
  · have hd := gpsParceDispatch_velned s s.cls s.payload_length s.buffer
    rw [← h18, e] at hd
    rw [hd] at h
    injection h with h
    subst h
    exact ⟨rfl, rfl, rfl, rfl, rfl⟩
  by_cases h33 : s.msg_id = MSG_TIMEUTC
  · have hd := gpsParceDispatch_timeutc s s.cls s.payload_length s.buffer
    rw [← h33, e] at hd
    rw [hd] at h
    injection h with h
    subst h
    exact ⟨rfl, rfl, rfl, rfl, rfl⟩
  by_cases h7 : s.msg_id = MSG_PVT
  · have hd := gpsParceDispatch_pvt s s.cls s.payload_length s.buffer
    rw [← h7, e] at hd
    rw [hd] at h
    injection h with h
    subst h
    exact ⟨rfl, rfl, rfl, rfl, rfl⟩
  by_cases h4 : s.msg_id = MSG_VER
  · have hd := gpsParceDispatch_ver s s.cls s.payload_length s.buffer
    rw [← h4, e] at hd
    rw [hd] at h
    injection h with h
    subst h
    exact ⟨rfl, rfl, rfl, rfl, rfl⟩
  by_cases h1 : s.msg_id = MSG_ACK_ACK
  · have hd := gpsParceDispatch_ack s s.cls s.payload_length s.buffer
    rw [← h1, e] at hd
    rw [hd] at h
    injection h with h
    subst h
    exact ⟨rfl, rfl, rfl, rfl, rfl⟩
  by_cases h0 : s.msg_id = MSG_ACK_NACK
  · have hd := gpsParceDispatch_nack s s.cls s.payload_length s.buffer
    rw [← h0, e] at hd
    rw [hd] at h
    injection h with h
    subst h
    exact ⟨rfl, rfl, rfl, rfl, rfl⟩
  rw [gpsParceDispatch_default s h2 h3 h6 h18 h33 h7 h4 h1 h0] at h
  cases h

/-- The solution mapper never touches the decoder registers, the receive
buffer or the statistics counters. -/
theorem gpsParceFrame_preserves (s : UbloxState) :
    (gpsParceFrameUBLOX s).1.step = s.step
    ∧ (gpsParceFrameUBLOX s).1.skip_packet = s.skip_packet
    ∧ (gpsParceFrameUBLOX s).1.buffer = s.buffer
    ∧ (gpsParceFrameUBLOX s).1.errors = s.errors
    ∧ (gpsParceFrameUBLOX s).1.packetCount = s.packetCount := by
  cases hd : gpsParceDispatch s with
  | none =>
    rw [gpsParceFrame_of_dispatch_none _ hd]
    exact ⟨rfl, rfl, rfl, rfl, rfl⟩
  | some Y =>
    obtain ⟨h1, h2, h3, h4, h5⟩ := gpsParceDispatch_preserves s Y hd
    rw [gpsParceFrame_of_dispatch _ _ hd]
    split
    · exact ⟨h1, h2, h3, h4, h5⟩
    · exact ⟨h1, h2, h3, h4, h5⟩

/-- One decoder step never writes the payload buffer at or beyond its
capacity: the store in the payload state is guarded by the counter bound. -/
theorem gpsNewFrame_buffer_high (s : UbloxState) (d i : Nat)
    (hi : MAX_UBLOX_PAYLOAD_SIZE ≤ i) :
    (gpsNewFrameUBLOX s d).1.buffer i = s.buffer i := by
  by_cases h0 : s.step = 0
  · rw [gpsNewFrame_step0 s d h0]
    split <;> rfl
  by_cases h1 : s.step = 1
  · rw [gpsNewFrame_step1 s d h1]
    split <;> rfl
  by_cases h2 : s.step = 2
  · rw [gpsNewFrame_step2 s d h2]
  by_cases h3 : s.step = 3
  · rw [gpsNewFrame_step3 s d h3]
  by_cases h4 : s.step = 4
  · rw [gpsNewFrame_step4 s d h4]
  by_cases h5 : s.step = 5
  · rw [gpsNewFrame_step5 s d h5]
    split <;> rfl
  by_cases h6 : s.step = 6
  · rw [gpsNewFrame_step6 s d h6]
    show (if s.payload_counter < MAX_UBLOX_PAYLOAD_SIZE then
        fun j => if j = s.payload_counter then d % 256 else s.buffer j
      else s.buffer) i = s.buffer i
    by_cases hpc : s.payload_counter < MAX_UBLOX_PAYLOAD_SIZE
    · rw [if_pos hpc]
      show (if i = s.payload_counter then d % 256 else s.buffer i) = s.buffer i
      rw [if_neg (by omega)]
    · rw [if_neg hpc]
  by_cases h7 : s.step = 7
  · rw [gpsNewFrame_step7 s d h7]
    split <;> rfl
  by_cases h8 : s.step = 8
  · rw [gpsNewFrame_step8 s d h8]
    by_cases hck : s.ck_b ≠ d % 256
    · rw [if_pos hck]
    rw [if_neg hck]
    by_cases hsk : s.skip_packet
    · rw [if_pos hsk]
    rw [if_neg hsk]
    exact congrFun (gpsParceFrame_preserves _).2.2.1 i
  rw [gpsNewFrame_stepHigh s d h0 h1 h2 h3 h4 h5 h6 h7 h8]

/-- Feeding any byte stream never writes the payload buffer at or beyond
its capacity. -/
theorem runUblox_buffer_high (bs : List Nat) :
    ∀ (s : UbloxState) (i : Nat), MAX_UBLOX_PAYLOAD_SIZE ≤ i →
      (runUblox s bs).buffer i = s.buffer i := by
  induction bs with
  | nil => intro s i _; rfl
  | cons d ds ih =>
    intro s i hi
    rw [runUblox, ih _ i hi, gpsNewFrame_buffer_high s d i hi]

/-- One decoder step preserves the invariant that the skip-packet flag can
only be set while the machine is back in sync search. -/
theorem gpsNewFrame_skip_inv (s : UbloxState) (d : Nat)
    (hInv : s.skip_packet = true → s.step = 0) :
    (gpsNewFrameUBLOX s d).1.skip_packet = true → (gpsNewFrameUBLOX s d).1.step = 0 := by
  by_cases h0 : s.step = 0
  · rw [gpsNewFrame_step0 s d h0]
    split
    · intro hsk
      exact Bool.noConfusion hsk
    · intro hsk
      exact hInv hsk
  by_cases h1 : s.step = 1
  · rw [gpsNewFrame_step1 s d h1]
    split
    · intro _
      rfl
    · intro hsk
      exact absurd (hInv hsk) (by rw [h1]; decide)
  by_cases h2 : s.step = 2
  · rw [gpsNewFrame_step2 s d h2]
    intro hsk
    exact absurd (hInv hsk) (by rw [h2]; decide)
  by_cases h3 : s.step = 3
  · rw [gpsNewFrame_step3 s d h3]
    intro hsk
    exact absurd (hInv hsk) (by rw [h3]; decide)
  by_cases h4 : s.step = 4
  · rw [gpsNewFrame_step4 s d h4]
    intro hsk
    exact absurd (hInv hsk) (by rw [h4]; decide)
  by_cases h5 : s.step = 5
  · rw [gpsNewFrame_step5 s d h5]
    split
    · intro _
      rfl
    · intro hsk
      exact absurd (hInv hsk) (by rw [h5]; decide)
  by_cases h6 : s.step = 6
  · rw [gpsNewFrame_step6 s d h6]
    intro hsk
    exact absurd (hInv hsk) (by rw [h6]; decide)
  by_cases h7 : s.step = 7
  · rw [gpsNewFrame_step7 s d h7]
    split
    · intro _
      rfl
    · intro hsk
      exact absurd (hInv hsk) (by rw [h7]; decide)
  by_cases h8 : s.step = 8
  · rw [gpsNewFrame_step8 s d h8]
    by_cases hck : s.ck_b ≠ d % 256
    · rw [if_pos hck]
      intro _
      rfl
    rw [if_neg hck]
    by_cases hsk0 : s.skip_packet
    · rw [if_pos hsk0]
      intro _
      rfl
    rw [if_neg hsk0]
    intro _
    exact (gpsParceFrame_preserves _).1
  rw [gpsNewFrame_stepHigh s d h0 h1 h2 h3 h4 h5 h6 h7 h8]
  intro hsk
  exact absurd (hInv hsk) h0

/-- The skip-packet invariant holds in every reachable decoder state. -/
theorem runUblox_skip_inv (bs : List Nat) :
    ∀ s : UbloxState, (s.skip_packet = true → s.step = 0) →
      ((runUblox s bs).skip_packet = true → (runUblox s bs).step = 0) := by
  induction bs with
  | nil => intro s h; exact h
  | cons d ds ih =>
    intro s h
    exact ih _ (gpsNewFrame_skip_inv s d h)

/-- C5: a combined declared payload length strictly above the 256-byte
buffer capacity makes the decoder count an error and restart the sync
search, so the very next input byte is treated as a sync candidate (a sync
byte advances it to the sync-2 state); and no input byte stream ever
writes the payload buffer at an index at or beyond 256. -/
theorem spec_C5 :
    (∀ (s : UbloxState) (d : Nat), s.step = 5 →
      s.payload_length ||| ((d % 256) <<< 8 % 65536) > MAX_UBLOX_PAYLOAD_SIZE →
      (gpsNewFrameUBLOX s d).1.errors = s.errors + 1
      ∧ (gpsNewFrameUBLOX s d).1.step = 0
      ∧ (gpsNewFrameUBLOX (gpsNewFrameUBLOX s d).1 PREAMBLE1).1.step = 1)
    ∧ (∀ (s : UbloxState) (bs : List Nat) (i : Nat), MAX_UBLOX_PAYLOAD_SIZE ≤ i →
        (runUblox s bs).buffer i = s.buffer i) := by
  constructor
  · intro s d h5 hov
    rw [gpsNewFrame_step5 s d h5, if_pos hov]
    refine ⟨rfl, rfl, ?_⟩
    rw [gpsNewFrame_step0 _ PREAMBLE1 rfl, if_pos (by decide)]
  · exact fun s bs i hi => runUblox_buffer_high bs s i hi

/-- C5 witness: a declared length of 0xFF01 at the length-high state, and
a short stream leaving high buffer indices untouched. -/
theorem spec_C5_witness :
    ((gpsNewFrameUBLOX { initialUbloxState with step := 5, payload_length := 255 } 255).1.errors
      = ({ initialUbloxState with step := 5, payload_length := 255 } : UbloxState).errors + 1)
    ∧ (runUblox initialUbloxState [181, 98, 1, 2, 3, 1]).buffer 300
      = initialUbloxState.buffer 300 :=
  ⟨(spec_C5.1 { initialUbloxState with step := 5, payload_length := 255 } 255 rfl
      (by decide)).1,
    spec_C5.2 initialUbloxState [181, 98, 1, 2, 3, 1] 300 (by decide)⟩

/-- An accepted frame that is neither a position frame nor a combined PVT
frame cannot fire completion from a clean position latch, and leaves the
position latch clean. -/
theorem applyFrame_no_pos (s : UbloxState) (f : UbxFrame)
    (h2 : f.id ≠ MSG_POSLLH) (h7 : f.id ≠ MSG_PVT) (hs : s.new_position = false) :
    (applyFrame s f).2 = false ∧ (applyFrame s f).1.new_position = false := by
  obtain ⟨fc, fi, fp, fb⟩ := f
  simp only at h2 h7
  by_cases h3 : fi = MSG_STATUS
  · subst h3
    rw [applyFrame, gpsParceFrame_of_dispatch _ _ (gpsParceDispatch_status s fc fp fb),
      if_neg (by simp [loadFrame, hs])]
    exact ⟨rfl, hs⟩
  by_cases h6 : fi = MSG_SOL
  · subst h6
    rw [applyFrame, gpsParceFrame_of_dispatch _ _ (gpsParceDispatch_sol s fc fp fb),
      if_neg (by simp [loadFrame, hs])]
    exact ⟨rfl, hs⟩
  by_cases h18 : fi = MSG_VELNED
  · subst h18
    rw [applyFrame, gpsParceFrame_of_dispatch _ _ (gpsParceDispatch_velned s fc fp fb),
      if_neg (by simp [loadFrame, hs])]
    exact ⟨rfl, hs⟩
  by_cases h33 : fi = MSG_TIMEUTC
  · subst h33
    rw [applyFrame, gpsParceFrame_of_dispatch _ _ (gpsParceDispatch_timeutc s fc fp fb),
      if_neg (by simp [loadFrame, hs])]
    exact ⟨rfl, hs⟩
  by_cases h4 : fi = MSG_VER
  · subst h4
    rw [applyFrame, gpsParceFrame_of_dispatch _ _ (gpsParceDispatch_ver s fc fp fb),
      if_neg (by simp [loadFrame, hs])]
    exact ⟨rfl, hs⟩
  by_cases h1 : fi = MSG_ACK_ACK
  · subst h1
    rw [applyFrame, gpsParceFrame_of_dispatch _ _ (gpsParceDispatch_ack s fc fp fb),
      if_neg (by simp [loadFrame, hs])]
    exact ⟨rfl, hs⟩
  by_cases h0 : fi = MSG_ACK_NACK
  · subst h0
    rw [applyFrame, gpsParceFrame_of_dispatch _ _ (gpsParceDispatch_nack s fc fp fb),
      if_neg (by simp [loadFrame, hs])]
    exact ⟨rfl, hs⟩
  rw [applyFrame, gpsParceFrame_of_dispatch_none _
    (gpsParceDispatch_default _ h2 h3 h6 h18 h33 h7 h4 h1 h0)]
  exact ⟨rfl, hs⟩

/-- An accepted frame that is neither a velocity frame nor a combined PVT
frame cannot fire completion from a clean velocity latch, and leaves the
velocity latch clean. -/
theorem applyFrame_no_speed (s : UbloxState) (f : UbxFrame)
    (h18 : f.id ≠ MSG_VELNED) (h7 : f.id ≠ MSG_PVT) (hs : s.new_speed = false) :
    (applyFrame s f).2 = false ∧ (applyFrame s f).1.new_speed = false := by
  obtain ⟨fc, fi, fp, fb⟩ := f
  simp only at h18 h7
  by_cases h2 : fi = MSG_POSLLH
  · subst h2
    rw [applyFrame, gpsParceFrame_of_dispatch _ _ (gpsParceDispatch_posllh s fc fp fb),
      if_neg (by simp [loadFrame, hs])]
    exact ⟨rfl, hs⟩
  by_cases h3 : fi = MSG_STATUS
  · subst h3
    rw [applyFrame, gpsParceFrame_of_dispatch _ _ (gpsParceDispatch_status s fc fp fb),
      if_neg (by simp [loadFrame, hs])]
    exact ⟨rfl, hs⟩
  by_cases h6 : fi = MSG_SOL
  · subst h6
    rw [applyFrame, gpsParceFrame_of_dispatch _ _ (gpsParceDispatch_sol s fc fp fb),
      if_neg (by simp [loadFrame, hs])]
    exact ⟨rfl, hs⟩
  by_cases h33 : fi = MSG_TIMEUTC
  · subst h33
    rw [applyFrame, gpsParceFrame_of_dispatch _ _ (gpsParceDispatch_timeutc s fc fp fb),
      if_neg (by simp [loadFrame, hs])]
    exact ⟨rfl, hs⟩
  by_cases h4 : fi = MSG_VER
  · subst h4
    rw [applyFrame, gpsParceFrame_of_dispatch _ _ (gpsParceDispatch_ver s fc fp fb),
      if_neg (by simp [loadFrame, hs])]
    exact ⟨rfl, hs⟩
  by_cases h1 : fi = MSG_ACK_ACK
  · subst h1
    rw [applyFrame, gpsParceFrame_of_dispatch _ _ (gpsParceDispatch_ack s fc fp fb),
      if_neg (by simp [loadFrame, hs])]
    exact ⟨rfl, hs⟩
  by_cases h0 : fi = MSG_ACK_NACK
  · subst h0
    rw [applyFrame, gpsParceFrame_of_dispatch _ _ (gpsParceDispatch_nack s fc fp fb),
      if_neg (by simp [loadFrame, hs])]
    exact ⟨rfl, hs⟩
  rw [applyFrame, gpsParceFrame_of_dispatch_none _
    (gpsParceDispatch_default _ h2 h3 h6 h18 h33 h7 h4 h1 h0)]
  exact ⟨rfl, hs⟩

/-- A frame sequence without position-bearing frames never fires
completion when the position latch starts clean. -/
theorem runFrames_no_pos (fs : List UbxFrame) :
    ∀ s : UbloxState, s.new_position = false →
      (∀ f ∈ fs, f.id ≠ MSG_POSLLH ∧ f.id ≠ MSG_PVT) →
      (runFrames s fs).2 = false := by
  induction fs with
  | nil => intro s _ _; rfl
  | cons f fs ih =>
    intro s hs hall
    have hf := hall f (List.mem_cons_self f fs)
    have hA := applyFrame_no_pos s f hf.1 hf.2 hs
    show ((applyFrame s f).2 || (runFrames (applyFrame s f).1 fs).2) = false
    rw [hA.1, Bool.false_or]
    exact ih _ hA.2 (fun g hg => hall g (List.mem_cons_of_mem f hg))

/-- A frame sequence without velocity-bearing frames never fires
completion when the velocity latch starts clean. -/
theorem runFrames_no_speed (fs : List UbxFrame) :
    ∀ s : UbloxState, s.new_speed = false →
      (∀ f ∈ fs, f.id ≠ MSG_VELNED ∧ f.id ≠ MSG_PVT) →
      (runFrames s fs).2 = false := by
  induction fs with
  | nil => intro s _ _; rfl
  | cons f fs ih =>
    intro s hs hall
    have hf := hall f (List.mem_cons_self f fs)
    have hA := applyFrame_no_speed s f hf.1 hf.2 hs
    show ((applyFrame s f).2 || (runFrames (applyFrame s f).1 fs).2) = false
    rw [hA.1, Bool.false_or]
    exact ih _ hA.2 (fun g hg => hall g (List.mem_cons_of_mem f hg))

/-- C6: starting from latches that are not both set (as initially), the
mapper reports epoch-complete exactly when the dispatched frame left both
the position-updated and velocity-updated latches set, in which case both
are cleared together; the not-both-set condition is re-established after
every frame; a single combined PVT frame fires completion by itself; and
no frame sequence lacking position-bearing (or lacking velocity-bearing)
frames can fire completion. -/
theorem spec_C6 :
    (initialUbloxState.new_position = false ∧ initialUbloxState.new_speed = false)
    ∧ (∀ (s : UbloxState) (f : UbxFrame),
        ¬(s.new_position = true ∧ s.new_speed = true) →
        ((applyFrame s f).2 = true ↔
          ∃ s1, gpsParceDispatch (loadFrame s f) = some s1
            ∧ s1.new_position = true ∧ s1.new_speed = true)
        ∧ ((applyFrame s f).2 = true →
            (applyFrame s f).1.new_position = false
            ∧ (applyFrame s f).1.new_speed = false)
        ∧ ¬((applyFrame s f).1.new_position = true
            ∧ (applyFrame s f).1.new_speed = true))
    ∧ (∀ (s : UbloxState) (f : UbxFrame), f.id = MSG_PVT → (applyFrame s f).2 = true)
    ∧ (∀ (s : UbloxState) (fs : List UbxFrame), s.new_position = false →
        (∀ f ∈ fs, f.id ≠ MSG_POSLLH ∧ f.id ≠ MSG_PVT) →
        (runFrames s fs).2 = false)
    ∧ (∀ (s : UbloxState) (fs : List UbxFrame), s.new_speed = false →
        (∀ f ∈ fs, f.id ≠ MSG_VELNED ∧ f.id ≠ MSG_PVT) →
        (runFrames s fs).2 = false) := by
  refine ⟨⟨rfl, rfl⟩, ?_, ?_, ?_, ?_⟩
  · intro s f hnb
    cases hd : gpsParceDispatch (loadFrame s f) with
    | none =>
      rw [applyFrame, gpsParceFrame_of_dispatch_none _ hd]
      refine ⟨?_, ?_, ?_⟩
      · constructor
        · intro hfalse
          exact Bool.noConfusion hfalse
        · rintro ⟨s1, hs1, _⟩
          cases hs1
      · intro hfalse
        exact Bool.noConfusion hfalse
      · exact hnb
    | some Y =>
      rw [applyFrame, gpsParceFrame_of_dispatch _ _ hd]
      by_cases hc : (Y.new_position && Y.new_speed) = true
      · rw [if_pos hc]
        simp only [Bool.and_eq_true] at hc
        refine ⟨?_, ?_, ?_⟩
        · exact ⟨fun _ => ⟨Y, rfl, hc.1, hc.2⟩, fun _ => rfl⟩
        · exact fun _ => ⟨rfl, rfl⟩
        · intro hcontra
          exact Bool.noConfusion hcontra.1
      · rw [if_neg hc]
        refine ⟨?_, ?_, ?_⟩
        · constructor
          · intro hfalse
            exact Bool.noConfusion hfalse
          · rintro ⟨s1, hs1, hnp, hns⟩
            injection hs1 with hs1
            subst hs1
            exact (hc (by simp only [Bool.and_eq_true]; exact ⟨hnp, hns⟩)).elim
        · intro hfalse
          exact Bool.noConfusion hfalse
        · intro hcontra
          exact hc (by simp only [Bool.and_eq_true]; exact ⟨hcontra.1, hcontra.2⟩)
  · intro s f hid
    obtain ⟨fc, fi, fp, fb⟩ := f
    simp only at hid
    subst hid
    rw [applyFrame, gpsParceFrame_of_dispatch _ _ (gpsParceDispatch_pvt s fc fp fb)]
    simp [loadFrame]
  · exact fun s fs hs hall => runFrames_no_pos fs s hs hall
  · exact fun s fs hs hall => runFrames_no_speed fs s hs hall

/-- C6 witness: a single PVT frame fires completion from the initial
state, while a status-then-velocity sequence does not. -/
theorem spec_C6_witness :
    (applyFrame initialUbloxState ⟨CLASS_NAV, MSG_PVT, 84, cstr []⟩).2 = true
    ∧ (runFrames initialUbloxState
        [⟨CLASS_NAV, MSG_STATUS, 16, cstr []⟩, ⟨CLASS_NAV, MSG_VELNED, 36, cstr []⟩]).2
      = false :=
  ⟨spec_C6.2.2.1 initialUbloxState ⟨CLASS_NAV, MSG_PVT, 84, cstr []⟩ rfl,
    spec_C6.2.2.2.1 initialUbloxState
      [⟨CLASS_NAV, MSG_STATUS, 16, cstr []⟩, ⟨CLASS_NAV, MSG_VELNED, 36, cstr []⟩] rfl
      (by intro g hg
          rcases List.mem_cons.mp hg with h | h
          · subst h
            exact ⟨by decide, by decide⟩
          · rcases List.mem_cons.mp h with h2 | h2
            · subst h2
              exact ⟨by decide, by decide⟩
            · cases h2)⟩

/-- C10: in every decoder state reachable from the initial state, the
skip-packet flag implies the machine is in sync search, hence in the
checksum-B state (step 8) the flag is always clear, and a matching
checksum-B byte always reaches the dispatch call: the step equals the
dispatch of the completed frame with the packet counter bumped, never the
suppressed branch. -/
theorem spec_C10 (bs : List Nat) :
    ((runUblox initialUbloxState bs).skip_packet = true →
      (runUblox initialUbloxState bs).step = 0)
    ∧ ((runUblox initialUbloxState bs).step = 8 →
      (runUblox initialUbloxState bs).skip_packet = false)
    ∧ ((runUblox initialUbloxState bs).step = 8 →
      ∀ d : Nat, d % 256 = (runUblox initialUbloxState bs).ck_b →
        gpsNewFrameUBLOX (runUblox initialUbloxState bs) d =
          gpsParceFrameUBLOX { runUblox initialUbloxState bs with
            step := 0,
            packetCount := (runUblox initialUbloxState bs).packetCount + 1 }) := by
  have hInv := runUblox_skip_inv bs initialUbloxState (fun h => Bool.noConfusion h)
  have hskip : (runUblox initialUbloxState bs).step = 8 →
      (runUblox initialUbloxState bs).skip_packet = false := by
    intro h8
    cases hsk : (runUblox initialUbloxState bs).skip_packet with
    | false => rfl
    | true => exact absurd ((hInv hsk).symm.trans h8) (by decide)
  refine ⟨hInv, hskip, fun h8 d hd => ?_⟩
  rw [gpsNewFrame_step8 _ d h8, if_neg (by rw [hd]; exact fun h => h rfl),
    if_neg (by rw [hskip h8]; exact fun h => Bool.noConfusion h)]

/-- C10 witness: the byte stream of a complete header, one payload byte
and a matching checksum-A byte reaches the checksum-B state with the
skip-packet flag clear. -/
theorem spec_C10_witness :
    (runUblox initialUbloxState [181, 98, 1, 2, 1, 0, 170, 174]).skip_packet = false :=
  (spec_C10 [181, 98, 1, 2, 1, 0, 170, 174]).2.1 (by decide)

end GpsUblox
